import Mathlib

/-!
Verification of `hqrp::expected`.

A shallow embedding of `src/expected.hpp`: the class template
`hqrp::expected<E, U>`, a discriminated union of an expected payload `E`,
an unexpected payload `U`, or nothing.

The class keeps two members: the discriminant `value_variant` and the
storage union `toe`.  The payloads live in the union through placement-new,
explicit destructor calls and payload assignment, so the embedding keeps the
two members apart (the discriminant may disagree with what is alive in the
storage) and every member function logs the payload lifetime events it
performs, in program order, the way a payload type with counting
constructors and destructors observes them.
-/

namespace hqrp

/-! ## Data model -/

/-- Discriminant `enum class ValueVariant { Expected, Unexpected, NoValue }`. -/
inductive ValueVariant where
  | Expected
  | Unexpected
  | NoValue
  deriving DecidableEq, Repr

/-- Storage `union type_or_error { E e; U u; }`.  Its constructors and its
destructor have empty bodies, so no member is alive until a placement-new
starts one, and at most one member is alive at a time (they share storage).
`empty` is storage with no member alive. -/
inductive type_or_error (E U : Type) where
  | empty : type_or_error E U
  | holds_e (v : E) : type_or_error E U
  | holds_u (v : U) : type_or_error E U
  deriving DecidableEq, Repr

/-- Member `toe.e` seen through a reference: the `E` object alive in the
storage, `none` when no `E` object is alive there. -/
def type_or_error.e {E U : Type} : type_or_error E U → Option E
  | .holds_e v => some v
  | _ => none

/-- Member `toe.u` seen through a reference: the `U` object alive in the
storage, `none` when no `U` object is alive there. -/
def type_or_error.u {E U : Type} : type_or_error E U → Option U
  | .holds_u v => some v
  | _ => none

/-- Class `expected<E, U>`: members `toe` and
`value_variant = ValueVariant::NoValue`. -/
structure expected (E U : Type) where
  toe : type_or_error E U
  value_variant : ValueVariant
  deriving DecidableEq, Repr

/-- Payload lifetime events, as a payload type with counting special member
functions observes them. -/
inductive Event (E U : Type) where
  /-- Placement-new `new (&toe.e) E(v)`. -/
  | construct_E (v : E) : Event E U
  /-- Payload assignment `toe.e = v`. -/
  | assign_E (v : E) : Event E U
  /-- Destructor call `toe.e.~E()`. -/
  | destroy_E : Event E U
  /-- Placement-new `new (&toe.u) U(v)`. -/
  | construct_U (v : U) : Event E U
  /-- Payload assignment `toe.u = v`. -/
  | assign_U (v : U) : Event E U
  /-- Destructor call `toe.u.~U()`. -/
  | destroy_U : Event E U
  deriving DecidableEq, Repr

/-- The exception `std::logic_error(what)`. -/
structure logic_error where
  what : String
  deriving DecidableEq, Repr

/-- A member function body in progress: the object and the lifetime events
performed so far, oldest first. -/
structure Run (E U : Type) where
  obj : expected E U
  log : List (Event E U)
  deriving DecidableEq, Repr

/-- Entry of a member function on `c`: nothing performed yet. -/
def Run.start {E U : Type} (c : expected E U) : Run E U :=
  ⟨c, []⟩

/-- Statement `new (&toe.e) E(v)`: an `E` equal to `v` starts its lifetime in
the storage. -/
def Run.placement_new_e {E U : Type} (r : Run E U) (v : E) : Run E U :=
  ⟨{ r.obj with toe := .holds_e v }, r.log ++ [.construct_E v]⟩

/-- Statement `new (&toe.u) U(v)`. -/
def Run.placement_new_u {E U : Type} (r : Run E U) (v : U) : Run E U :=
  ⟨{ r.obj with toe := .holds_u v }, r.log ++ [.construct_U v]⟩

/-- Statement `toe.e.~E()`: ends the lifetime of the `E` object in the
storage.  The call is logged also when no `E` is alive there (it is then a
destructor call on a dead object); the storage is left as it is in that
case. -/
def Run.destroy_e {E U : Type} (r : Run E U) : Run E U :=
  ⟨{ r.obj with toe := match r.obj.toe with
                        | .holds_e _ => .empty
                        | t => t },
   r.log ++ [.destroy_E]⟩

/-- Statement `toe.u.~U()`. -/
def Run.destroy_u {E U : Type} (r : Run E U) : Run E U :=
  ⟨{ r.obj with toe := match r.obj.toe with
                        | .holds_u _ => .empty
                        | t => t },
   r.log ++ [.destroy_U]⟩

/-- Statement `toe.e = v`: the `E` object alive in the storage takes the value
`v`.  Assignment starts no lifetime: with no `E` alive the storage is left
as it is (and the logged event is an assignment to a dead object). -/
def Run.assign_e {E U : Type} (r : Run E U) (v : E) : Run E U :=
  ⟨{ r.obj with toe := match r.obj.toe with
                        | .holds_e _ => .holds_e v
                        | t => t },
   r.log ++ [.assign_E v]⟩

/-- Statement `toe.u = v`. -/
def Run.assign_u {E U : Type} (r : Run E U) (v : U) : Run E U :=
  ⟨{ r.obj with toe := match r.obj.toe with
                        | .holds_u _ => .holds_u v
                        | t => t },
   r.log ++ [.assign_U v]⟩

/-- Statement `value_variant = vv`. -/
def Run.set_value_variant {E U : Type} (r : Run E U) (vv : ValueVariant) : Run E U :=
  ⟨{ r.obj with value_variant := vv }, r.log⟩

/-! ## Constructors and destructor -/

/-- Constructor `constexpr expected() = default;`: the union constructor
leaves the storage empty and the member initialiser sets `NoValue`. -/
def expected.ctor_default {E U : Type} : Run E U :=
  Run.start ⟨.empty, .NoValue⟩

/-- Constructor `expected(const E & e) : value_variant(Expected)` with body
`new (&toe.e) E(e);`. -/
def expected.ctor_E {E U : Type} (e : E) : Run E U :=
  (Run.start ⟨.empty, .Expected⟩).placement_new_e e

/-- Constructor `expected(const U & u) : value_variant(Unexpected)` with body
`new (&toe.u) U(u);`. -/
def expected.ctor_U {E U : Type} (u : U) : Run E U :=
  (Run.start ⟨.empty, .Unexpected⟩).placement_new_u u

/-- Constructor `expected(nullexpect_t) : expected() {}`: delegates to the
default constructor. -/
def expected.ctor_nullexpect {E U : Type} : Run E U :=
  expected.ctor_default

/-- Conversion `explicit operator bool() const noexcept`. -/
def expected.operator_bool {E U : Type} (self : expected E U) : Bool :=
  if self.value_variant = .Expected then true else false

/-- Copy constructor `expected(const expected & rhs) : value_variant(rhs.value_variant)`.
Its body initialises the payload from the container itself, `E(rhs)` and
`U(rhs)`, not from `rhs.toe.e` and `rhs.toe.u`.  What `E(rhs)` and `U(rhs)`
yield is decided by the payload types (a converting constructor, or for
`bool` the container's `operator bool`), so the two direct-initialisations
are parameters `E_of` and `U_of`; for payload types without such a
conversion the copy constructor does not compile. -/
def expected.ctor_copy {E U : Type} (E_of : expected E U → E) (U_of : expected E U → U)
    (rhs : expected E U) : Run E U :=
  let r : Run E U := Run.start ⟨.empty, rhs.value_variant⟩
  if r.obj.value_variant = .Expected then
    r.placement_new_e (E_of rhs)
  else if r.obj.value_variant = .Unexpected then
    r.placement_new_u (U_of rhs)
  else
    r

/-- Destructor `~expected()`. -/
def expected.dtor {E U : Type} (self : expected E U) : Run E U :=
  if self.value_variant = .Expected then
    (Run.start self).destroy_e
  else if self.value_variant = .Unexpected then
    (Run.start self).destroy_u
  else
    Run.start self

/-! ## Emplace and assignment -/

/-- Member `emplace_expected(Args &&... args)`; `e` is the object
`E(std::forward<Args>(args)...)` builds. -/
def expected.emplace_expected {E U : Type} (self : expected E U) (e : E) : Run E U :=
  let r : Run E U :=
    if self.value_variant = .Expected then
      (Run.start self).destroy_e
    else if self.value_variant = .Unexpected then
      (Run.start self).destroy_u
    else
      Run.start self
  (r.placement_new_e e).set_value_variant .Expected

/-- Member `emplace_unexpected(Args &&... args)`. -/
def expected.emplace_unexpected {E U : Type} (self : expected E U) (u : U) : Run E U :=
  let r : Run E U :=
    if self.value_variant = .Expected then
      (Run.start self).destroy_e
    else if self.value_variant = .Unexpected then
      (Run.start self).destroy_u
    else
      Run.start self
  (r.placement_new_u u).set_value_variant .Unexpected

/-- Operator `expected & operator=(const E & rhs)`. -/
def expected.assign_E {E U : Type} (self : expected E U) (rhs : E) : Run E U :=
  if self.value_variant = .Expected then
    (Run.start self).assign_e rhs
  else
    let r : Run E U :=
      if self.value_variant = .Unexpected then (Run.start self).destroy_u
      else Run.start self
    (r.placement_new_e rhs).set_value_variant .Expected

/-- Operator `expected & operator=(E && rhs)`: the same control flow with
`std::move(rhs)`; the payload receives the value of `rhs`. -/
def expected.assign_E_move {E U : Type} (self : expected E U) (rhs : E) : Run E U :=
  if self.value_variant = .Expected then
    (Run.start self).assign_e rhs
  else
    let r : Run E U :=
      if self.value_variant = .Unexpected then (Run.start self).destroy_u
      else Run.start self
    (r.placement_new_e rhs).set_value_variant .Expected

/-- Operator `expected & operator=(const U & rhs)`. -/
def expected.assign_U {E U : Type} (self : expected E U) (rhs : U) : Run E U :=
  if self.value_variant = .Unexpected then
    (Run.start self).assign_u rhs
  else
    let r : Run E U :=
      if self.value_variant = .Expected then (Run.start self).destroy_e
      else Run.start self
    (r.placement_new_u rhs).set_value_variant .Unexpected

/-- Operator `expected & operator=(U && rhs)`. -/
def expected.assign_U_move {E U : Type} (self : expected E U) (rhs : U) : Run E U :=
  if self.value_variant = .Unexpected then
    (Run.start self).assign_u rhs
  else
    let r : Run E U :=
      if self.value_variant = .Expected then (Run.start self).destroy_e
      else Run.start self
    (r.placement_new_u rhs).set_value_variant .Unexpected

/-- Operator `expected & operator=(nullexpect_t)`.  The statement
`value_variant = ValueVariant::NoValue;` stands inside the `else` block. -/
def expected.assign_nullexpect {E U : Type} (self : expected E U) : Run E U :=
  if self.value_variant = .Expected then
    (Run.start self).destroy_e
  else
    let r : Run E U :=
      if self.value_variant = .Unexpected then (Run.start self).destroy_u
      else Run.start self
    r.set_value_variant .NoValue

/-- Result of an assignment from another container: the run on `*this` and
the argument object after the call. -/
structure Assigned (E U : Type) where
  run : Run E U
  rhs : expected E U
  deriving DecidableEq, Repr

/-- Operator `expected & operator=(const expected & rhs)`.  `this_ne_rhs` is
the outcome of the test `this != &rhs`.  The nested calls `operator=(rhs.toe.e)`
and `operator=(rhs.toe.u)` read the source payload through a reference: when
the slot the source discriminant names holds no live object the read is
outside any lifetime and the result is `none`.  The source is a `const`
reference and is not written. -/
def expected.assign_copy {E U : Type} (self rhs : expected E U) (this_ne_rhs : Bool) :
    Option (Assigned E U) :=
  if this_ne_rhs then
    if rhs.value_variant = .Expected then
      rhs.toe.e.map (fun v => ⟨self.assign_E v, rhs⟩)
    else if rhs.value_variant = .Unexpected then
      rhs.toe.u.map (fun v => ⟨self.assign_U v, rhs⟩)
    else
      some ⟨Run.start self, rhs⟩
  else
    some ⟨Run.start self, rhs⟩

/-- Move constructor `expected(expected && rhs) : value_variant(rhs.value_variant)`
with bodies `new (&toe.e) E(std::move(rhs.toe.e))` and
`new (&toe.u) U(std::move(rhs.toe.u))`.  What a payload is left as after
being moved from is decided by the payload type: parameters `moved_from_E`
and `moved_from_U`.  Reading a source slot with no live object gives
`none`, as in the copy assignment. -/
def expected.ctor_move {E U : Type} (moved_from_E : E → E) (moved_from_U : U → U)
    (rhs : expected E U) : Option (Assigned E U) :=
  let r : Run E U := Run.start ⟨.empty, rhs.value_variant⟩
  if r.obj.value_variant = .Expected then
    rhs.toe.e.map (fun v => ⟨r.placement_new_e v, { rhs with toe := .holds_e (moved_from_E v) }⟩)
  else if r.obj.value_variant = .Unexpected then
    rhs.toe.u.map (fun v => ⟨r.placement_new_u v, { rhs with toe := .holds_u (moved_from_U v) }⟩)
  else
    some ⟨r, rhs⟩

/-- Operator `expected & operator=(expected && rhs)`: the nested calls are
`operator=(std::move(rhs.toe.e))` and `operator=(std::move(rhs.toe.u))`, that
is `operator=(E &&)` and `operator=(U &&)`.  `this_ne_rhs` is the outcome of
`this != &rhs`; `moved_from_E` and `moved_from_U` are as in the move
constructor. -/
def expected.assign_move {E U : Type} (moved_from_E : E → E) (moved_from_U : U → U)
    (self rhs : expected E U) (this_ne_rhs : Bool) : Option (Assigned E U) :=
  if this_ne_rhs then
    if rhs.value_variant = .Expected then
      rhs.toe.e.map (fun v =>
        ⟨self.assign_E_move v, { rhs with toe := .holds_e (moved_from_E v) }⟩)
    else if rhs.value_variant = .Unexpected then
      rhs.toe.u.map (fun v =>
        ⟨self.assign_U_move v, { rhs with toe := .holds_u (moved_from_U v) }⟩)
    else
      some ⟨Run.start self, rhs⟩
  else
    some ⟨Run.start self, rhs⟩

/-! ## Accessors -/

/-- Accessor `E & get_expected()`: a reference to `toe.e` (seen as the object
alive there), or the thrown `std::logic_error`. -/
def expected.get_expected {E U : Type} (self : expected E U) : Except logic_error (Option E) :=
  if self.value_variant = .Expected then
    .ok self.toe.e
  else
    .error ⟨"Trying to use expected with expected value, but it contains unexpected value."⟩

/-- Accessor `const E & get_expected() const`. -/
def expected.get_expected_const {E U : Type} (self : expected E U) :
    Except logic_error (Option E) :=
  if self.value_variant = .Expected then
    .ok self.toe.e
  else
    .error ⟨"Trying to use expected with expected value, but it contains unexpected value."⟩

/-- Accessor `U & get_unexpected()`. -/
def expected.get_unexpected {E U : Type} (self : expected E U) : Except logic_error (Option U) :=
  if self.value_variant = .Unexpected then
    .ok self.toe.u
  else
    .error ⟨"Trying to use expected with unexpected value, but it contains expected value."⟩

/-- Accessor `const U & get_unexpected() const`. -/
def expected.get_unexpected_const {E U : Type} (self : expected E U) :
    Except logic_error (Option U) :=
  if self.value_variant = .Unexpected then
    .ok self.toe.u
  else
    .error ⟨"Trying to use expected with unexpected value, but it contains expected value."⟩

/-- Accessor `const E & value_or(const E & e) const noexcept`: a reference to
`toe.e` or to the argument, together with the run on `*this`: the body
writes no member and performs no payload lifetime event.  The overload
`E & value_or(const E & e) noexcept` has the same body; its `return e;` binds
an `E &` to a `const E &`, so it only compiles for a `const`-qualified `E`. -/
def expected.value_or {E U : Type} (self : expected E U) (e : E) : Option E × Run E U :=
  if self.value_variant = .Expected then
    (self.toe.e, Run.start self)
  else
    (some e, Run.start self)

/-- One insertion into `std::cerr`. -/
inductive cerr_chunk where
  /-- Insertion of a string literal, or of `toe.u` while a `U` is alive there
  (its rendering). -/
  | text (s : String) : cerr_chunk
  /-- Insertion of `std::endl`. -/
  | endl : cerr_chunk
  /-- Insertion of `toe.u` while no `U` object is alive in the storage: the
  text is whatever the dead slot renders as. -/
  | dead_u : cerr_chunk
  deriving DecidableEq, Repr

/-- How a call of `value_or_terminate` ends: it returns a reference to
`toe.e`, or it reaches `std::terminate()` after the insertions `cerr`. -/
inductive Outcome (E : Type) where
  | returns (slot : Option E) : Outcome E
  | terminate (cerr : List cerr_chunk) : Outcome E
  deriving DecidableEq, Repr

/-- The one-character string literal holding a double quote, inserted
before and after `toe.u`. -/
def double_quote : String :=
  String.singleton (Char.ofNat 34)

/-- Accessor `E & value_or_terminate()`.  `stream_U` is the compile-time test
`OStreamStreamable<U>`: `some render` when `std::cerr << u` is well-formed
(with `render u` the text it writes), `none` otherwise. -/
def expected.value_or_terminate {E U : Type} (stream_U : Option (U → String))
    (self : expected E U) : Outcome E :=
  if self.value_variant = .Expected then
    .returns self.toe.e
  else
    let header : List cerr_chunk := [.text "Process terminated. Error message:", .endl]
    match stream_U with
    | some render =>
      .terminate (header ++
        [.text double_quote,
         (match self.toe.u with
          | some u => .text (render u)
          | none => .dead_u),
         .text double_quote, .endl])
    | none =>
      .terminate (header ++ [.text "Error type is not streamable via OStream.", .endl])

/-- Accessor `const E & value_or_terminate() const`. -/
def expected.value_or_terminate_const {E U : Type} (stream_U : Option (U → String))
    (self : expected E U) : Outcome E :=
  if self.value_variant = .Expected then
    .returns self.toe.e
  else
    let header : List cerr_chunk := [.text "Process terminated. Error message:", .endl]
    match stream_U with
    | some render =>
      .terminate (header ++
        [.text double_quote,
         (match self.toe.u with
          | some u => .text (render u)
          | none => .dead_u),
         .text double_quote, .endl])
    | none =>
      .terminate (header ++ [.text "Error type is not streamable via OStream.", .endl])

/-- Operators `E & operator*()` and `const E & operator*() const`:
`return get_expected();`. -/
def expected.operator_star {E U : Type} (self : expected E U) : Except logic_error (Option E) :=
  self.get_expected

/-- Operators `E * operator->()` and `const E * operator->() const`:
`return &get_expected();`, the pointer seen as what it points to. -/
def expected.operator_arrow {E U : Type} (self : expected E U) : Except logic_error (Option E) :=
  self.get_expected

/-! ## Specification-side predicates -/

/-- Invariants INV1 and INV2 of the data model: an `E` object is alive in the
storage exactly when the discriminant is `Expected`, a `U` object exactly
when it is `Unexpected` (so nothing is alive when it is `NoValue`). -/
def expected.invariant {E U : Type} (c : expected E U) : Prop :=
  (c.value_variant = .Expected ↔ c.toe.e.isSome = true) ∧
  (c.value_variant = .Unexpected ↔ c.toe.u.isSome = true)

instance {E U : Type} (c : expected E U) : Decidable c.invariant := by
  unfold expected.invariant
  infer_instance

/-- Number of `E` constructor calls in a log. -/
def ctor_calls_E {E U : Type} (log : List (Event E U)) : Nat :=
  (log.filter (fun ev => match ev with
    | .construct_E _ => true
    | _ => false)).length

/-- Number of `E` destructor calls in a log. -/
def dtor_calls_E {E U : Type} (log : List (Event E U)) : Nat :=
  (log.filter (fun ev => match ev with
    | .destroy_E => true
    | _ => false)).length

/-- Number of `U` constructor calls in a log. -/
def ctor_calls_U {E U : Type} (log : List (Event E U)) : Nat :=
  (log.filter (fun ev => match ev with
    | .construct_U _ => true
    | _ => false)).length

/-- Number of `U` destructor calls in a log. -/
def dtor_calls_U {E U : Type} (log : List (Event E U)) : Nat :=
  (log.filter (fun ev => match ev with
    | .destroy_U => true
    | _ => false)).length

/-! ## Accessor contract -/

/-- Claim C1: `get_expected()` (both forms) returns the reference to the
`Expected` payload slot exactly when the discriminant is `Expected`, and
otherwise (`Unexpected` or `NoValue`) throws `std::logic_error`; when the
invariant holds the slot returned holds a live payload.  Symmetrically for
`get_unexpected()` and `Unexpected`. -/
theorem get_accessors_contract {E U : Type} (c : expected E U) :
    ((c.value_variant = .Expected ↔ c.get_expected = .ok c.toe.e) ∧
     (c.value_variant ≠ .Expected ↔ ∃ err, c.get_expected = .error err) ∧
     c.get_expected_const = c.get_expected ∧
     (c.invariant ∧ c.value_variant = .Expected → ∃ v, c.get_expected = .ok (some v) ∧ c.toe = .holds_e v)) ∧
    ((c.value_variant = .Unexpected ↔ c.get_unexpected = .ok c.toe.u) ∧
     (c.value_variant ≠ .Unexpected ↔ ∃ err, c.get_unexpected = .error err) ∧
     c.get_unexpected_const = c.get_unexpected ∧
     (c.invariant ∧ c.value_variant = .Unexpected → ∃ v, c.get_unexpected = .ok (some v) ∧ c.toe = .holds_u v)) := by
  obtain ⟨toe, vv⟩ := c
  cases vv <;> cases toe <;>
    simp [expected.get_expected, expected.get_expected_const, expected.get_unexpected,
      expected.get_unexpected_const, expected.invariant, type_or_error.e, type_or_error.u]

/-! ## Construction -/

/-- Claim C2: for every `e`, the container built by `expected(const E &)` has
discriminant `Expected`, `get_expected()` on it returns a payload equal to
`e`, and `get_unexpected()` on it throws. -/
theorem ctor_E_contract {E U : Type} (e : E) :
    (expected.ctor_E e : Run E U).obj.value_variant = .Expected ∧
    (expected.ctor_E e : Run E U).obj.get_expected = .ok (some e) ∧
    (expected.ctor_E e : Run E U).obj.get_expected_const = .ok (some e) ∧
    (∃ err, (expected.ctor_E e : Run E U).obj.get_unexpected = .error err) ∧
    (∃ err, (expected.ctor_E e : Run E U).obj.get_unexpected_const = .error err) ∧
    (expected.ctor_E e : Run E U).log = [.construct_E e] ∧
    (expected.ctor_E e : Run E U).obj.invariant := by
  simp [expected.ctor_E, Run.start, Run.placement_new_e, expected.get_expected,
    expected.get_expected_const, expected.get_unexpected, expected.get_unexpected_const,
    expected.invariant, type_or_error.e, type_or_error.u]

/-- Claim C3: for every `u`, the container built by `expected(const U &)` has
discriminant `Unexpected`, `get_unexpected()` on it returns a payload equal
to `u`, and `get_expected()` on it throws. -/
theorem ctor_U_contract {E U : Type} (u : U) :
    (expected.ctor_U u : Run E U).obj.value_variant = .Unexpected ∧
    (expected.ctor_U u : Run E U).obj.get_unexpected = .ok (some u) ∧
    (expected.ctor_U u : Run E U).obj.get_unexpected_const = .ok (some u) ∧
    (∃ err, (expected.ctor_U u : Run E U).obj.get_expected = .error err) ∧
    (∃ err, (expected.ctor_U u : Run E U).obj.get_expected_const = .error err) ∧
    (expected.ctor_U u : Run E U).log = [.construct_U u] ∧
    (expected.ctor_U u : Run E U).obj.invariant := by
  simp [expected.ctor_U, Run.start, Run.placement_new_u, expected.get_expected,
    expected.get_expected_const, expected.get_unexpected, expected.get_unexpected_const,
    expected.invariant, type_or_error.e, type_or_error.u]

/-- Claim C4: `expected()` and `expected(nullexpect_t)` build the same
container: discriminant `NoValue`, no payload constructed, `get_expected()`
throws, `get_unexpected()` throws, and `operator bool` is false. -/
theorem ctor_default_nullexpect_contract {E U : Type} :
    (expected.ctor_nullexpect : Run E U) = expected.ctor_default ∧
    (expected.ctor_default : Run E U).obj.value_variant = .NoValue ∧
    (expected.ctor_default : Run E U).obj.toe = .empty ∧
    (expected.ctor_default : Run E U).log = [] ∧
    (∃ err, (expected.ctor_default : Run E U).obj.get_expected = .error err) ∧
    (∃ err, (expected.ctor_default : Run E U).obj.get_unexpected = .error err) ∧
    (expected.ctor_default : Run E U).obj.operator_bool = false ∧
    (∃ err, (expected.ctor_nullexpect : Run E U).obj.get_expected = .error err) ∧
    (∃ err, (expected.ctor_nullexpect : Run E U).obj.get_unexpected = .error err) ∧
    (expected.ctor_nullexpect : Run E U).obj.operator_bool = false := by
  simp [expected.ctor_nullexpect, expected.ctor_default, Run.start, expected.get_expected,
    expected.get_unexpected, expected.operator_bool]

/-! ## Assignment of the empty marker -/

/-- Claim C5, the code at the failing input: `expected<unsigned, std::string> c(7); c = nullexpect;`.
The `Expected` branch of `operator=(nullexpect_t)` destroys the payload and
leaves the discriminant at `Expected`: afterwards `operator bool` is true and
`get_expected()` does not throw but returns a reference to the slot whose
payload was destroyed. -/
theorem assign_nullexpect_keeps_Expected :
    ((expected.ctor_E 7 : Run Nat String).obj.assign_nullexpect).obj.value_variant = .Expected ∧
    ((expected.ctor_E 7 : Run Nat String).obj.assign_nullexpect).obj.toe = .empty ∧
    ((expected.ctor_E 7 : Run Nat String).obj.assign_nullexpect).log = [.destroy_E] ∧
    ((expected.ctor_E 7 : Run Nat String).obj.assign_nullexpect).obj.operator_bool = true ∧
    ((expected.ctor_E 7 : Run Nat String).obj.assign_nullexpect).obj.get_expected = .ok none ∧
    ((expected.ctor_U "u" : Run Nat String).obj.assign_nullexpect).obj = ⟨.empty, .NoValue⟩ ∧
    ((expected.ctor_default : Run Nat String).obj.assign_nullexpect).obj = ⟨.empty, .NoValue⟩ := by
  simp [expected.ctor_E, expected.ctor_U, expected.ctor_default, expected.assign_nullexpect,
    Run.start, Run.placement_new_e, Run.placement_new_u, Run.destroy_e, Run.destroy_u,
    Run.set_value_variant, expected.operator_bool, expected.get_expected, type_or_error.e]

/-! ## Copy assignment and copy construction -/

/-- Claim C6: for every target satisfying the data-model invariant and every
distinct source that satisfies it and holds a payload, `target = source`
completes, the target then has the discriminant of the source and a payload
equal to the source payload (and satisfies the invariant), and the source is
as it was. -/
theorem assign_copy_from_payload {E U : Type} (self rhs : expected E U)
    (hself : self.invariant) (hrhs : rhs.invariant) (hpayload : rhs.value_variant ≠ .NoValue) :
    ∃ r, self.assign_copy rhs true = some r ∧
      r.run.obj.value_variant = rhs.value_variant ∧
      r.run.obj.toe = rhs.toe ∧
      r.run.obj.get_expected = rhs.get_expected ∧
      r.run.obj.get_unexpected = rhs.get_unexpected ∧
      r.run.obj.invariant ∧
      r.rhs = rhs := by
  obtain ⟨stoe, svv⟩ := self
  obtain ⟨rtoe, rvv⟩ := rhs
  cases rvv <;> cases rtoe <;> cases svv <;> cases stoe <;>
    simp_all [expected.invariant, type_or_error.e, type_or_error.u, expected.assign_copy,
      expected.assign_E, expected.assign_U, Run.start, Run.assign_e, Run.assign_u,
      Run.destroy_e, Run.destroy_u, Run.placement_new_e, Run.placement_new_u,
      Run.set_value_variant, expected.get_expected, expected.get_unexpected]

/-- Witness for claim C6: a container holding the unexpected value `"x"` is
assigned a distinct container holding the expected value `3`. -/
theorem assign_copy_from_payload_witness :
    ((expected.ctor_U "x" : Run Nat String).obj.invariant ∧
     (expected.ctor_E 3 : Run Nat String).obj.invariant ∧
     (expected.ctor_E 3 : Run Nat String).obj.value_variant ≠ .NoValue) ∧
    ∃ r, (expected.ctor_U "x" : Run Nat String).obj.assign_copy (expected.ctor_E 3).obj true
          = some r ∧
      r.run.obj.value_variant = (expected.ctor_E 3 : Run Nat String).obj.value_variant ∧
      r.run.obj.toe = (expected.ctor_E 3 : Run Nat String).obj.toe ∧
      r.run.obj.get_expected = (expected.ctor_E 3 : Run Nat String).obj.get_expected ∧
      r.run.obj.get_unexpected = (expected.ctor_E 3 : Run Nat String).obj.get_unexpected ∧
      r.run.obj.invariant ∧
      r.rhs = (expected.ctor_E 3 : Run Nat String).obj :=
  ⟨⟨by decide, by decide, by decide⟩,
   assign_copy_from_payload _ _ (by decide) (by decide) (by decide)⟩

/-- Claim C7, the code at the failing input:
`expected<unsigned, std::string> t(5), s; t = s;`.  `operator=(const expected &)`
has no branch for a source whose discriminant is `NoValue`: the target keeps
discriminant `Expected` and its payload `5`, and no payload is destroyed. -/
theorem assign_copy_from_empty_keeps_target :
    (expected.ctor_E 5 : Run Nat String).obj.assign_copy expected.ctor_default.obj true
      = some ⟨⟨⟨.holds_e 5, .Expected⟩, []⟩, ⟨.empty, .NoValue⟩⟩ ∧
    (expected.ctor_U "u" : Run Nat String).obj.assign_copy expected.ctor_default.obj true
      = some ⟨⟨⟨.holds_u "u", .Unexpected⟩, []⟩, ⟨.empty, .NoValue⟩⟩ := by
  decide

/-- Claim C8, the code at the failing input: with `E = bool`, where `E(rhs)` is
the container's own `operator bool`, and `U` a tag type constructible from
anything, `expected<bool, U> a(false); expected<bool, U> b(a);`.  The copy
constructor builds the payload from the container, not from its payload: the
copy holds `true` while the source holds `false`. -/
theorem ctor_copy_payload_from_container :
    (expected.ctor_E false : Run Bool Unit).obj.get_expected = .ok (some false) ∧
    (expected.ctor_copy expected.operator_bool (fun _ => ())
      (expected.ctor_E false : Run Bool Unit).obj).obj.value_variant = .Expected ∧
    (expected.ctor_copy expected.operator_bool (fun _ => ())
      (expected.ctor_E false : Run Bool Unit).obj).obj.get_expected = .ok (some true) ∧
    (expected.ctor_copy expected.operator_bool (fun _ => ())
      (expected.ctor_E false : Run Bool Unit).obj).log = [.construct_E true] := by
  simp [expected.ctor_E, expected.ctor_copy, expected.operator_bool, Run.start,
    Run.placement_new_e, expected.get_expected, type_or_error.e]

/-! ## Assignment of a raw value -/

/-- Claim C9: for every container satisfying the data-model invariant, in any
of the three states, after `operator=(const E &)` or `operator=(E &&)` with
`e` the discriminant is `Expected` and `get_expected()` returns a payload
equal to `e`; after `operator=(const U &)` or `operator=(U &&)` with `u` the
discriminant is `Unexpected` and `get_unexpected()` returns a payload equal
to `u`. -/
theorem assign_raw_value_contract {E U : Type} (c : expected E U) (hc : c.invariant)
    (e : E) (u : U) :
    ((c.assign_E e).obj.value_variant = .Expected ∧
     (c.assign_E e).obj.get_expected = .ok (some e) ∧
     (c.assign_E e).obj.invariant) ∧
    ((c.assign_E_move e).obj.value_variant = .Expected ∧
     (c.assign_E_move e).obj.get_expected = .ok (some e) ∧
     (c.assign_E_move e).obj.invariant) ∧
    ((c.assign_U u).obj.value_variant = .Unexpected ∧
     (c.assign_U u).obj.get_unexpected = .ok (some u) ∧
     (c.assign_U u).obj.invariant) ∧
    ((c.assign_U_move u).obj.value_variant = .Unexpected ∧
     (c.assign_U_move u).obj.get_unexpected = .ok (some u) ∧
     (c.assign_U_move u).obj.invariant) := by
  obtain ⟨toe, vv⟩ := c
  cases vv <;> cases toe <;>
    simp_all [expected.invariant, type_or_error.e, type_or_error.u,
      expected.assign_E, expected.assign_E_move, expected.assign_U, expected.assign_U_move,
      Run.start, Run.assign_e, Run.assign_u, Run.destroy_e, Run.destroy_u,
      Run.placement_new_e, Run.placement_new_u, Run.set_value_variant,
      expected.get_expected, expected.get_unexpected]

/-- Witness for claim C9: raw values `4` and `"w"` assigned to a container
that holds the unexpected value `"x"`. -/
theorem assign_raw_value_contract_witness :
    (expected.ctor_U "x" : Run Nat String).obj.invariant ∧
    (((expected.ctor_U "x" : Run Nat String).obj.assign_E 4).obj.value_variant = .Expected ∧
     ((expected.ctor_U "x" : Run Nat String).obj.assign_E 4).obj.get_expected = .ok (some 4) ∧
     ((expected.ctor_U "x" : Run Nat String).obj.assign_E 4).obj.invariant) ∧
    (((expected.ctor_U "x" : Run Nat String).obj.assign_E_move 4).obj.value_variant = .Expected ∧
     ((expected.ctor_U "x" : Run Nat String).obj.assign_E_move 4).obj.get_expected
       = .ok (some 4) ∧
     ((expected.ctor_U "x" : Run Nat String).obj.assign_E_move 4).obj.invariant) ∧
    (((expected.ctor_U "x" : Run Nat String).obj.assign_U "w").obj.value_variant = .Unexpected ∧
     ((expected.ctor_U "x" : Run Nat String).obj.assign_U "w").obj.get_unexpected
       = .ok (some "w") ∧
     ((expected.ctor_U "x" : Run Nat String).obj.assign_U "w").obj.invariant) ∧
    (((expected.ctor_U "x" : Run Nat String).obj.assign_U_move "w").obj.value_variant
       = .Unexpected ∧
     ((expected.ctor_U "x" : Run Nat String).obj.assign_U_move "w").obj.get_unexpected
       = .ok (some "w") ∧
     ((expected.ctor_U "x" : Run Nat String).obj.assign_U_move "w").obj.invariant) :=
  ⟨by decide, assign_raw_value_contract _ (by decide) 4 "w"⟩

/-- Claim C10: for every container that satisfies the invariant with
discriminant `Expected`, and every `u`, `operator=(const U &)` performs
exactly the events "destroy the `E` payload" then "construct a `U` equal to
`u`" (the destroyed `E` being the payload alive at entry), and leaves
discriminant `Unexpected` with payload `u`; the destructor of the container
then performs exactly "destroy the `U` payload" and leaves nothing alive.
Over both steps: one `E` destruction for the one `E` alive at entry, no `E`
construction, one `U` construction and one `U` destruction. -/
theorem assign_U_over_expected_lifetime {E U : Type} (c : expected E U) (u : U)
    (hc : c.invariant) (hE : c.value_variant = .Expected) :
    (c.assign_U u).obj = ⟨.holds_u u, .Unexpected⟩ ∧
    (∃ e, c.toe = .holds_e e) ∧
    (c.assign_U u).log = [.destroy_E, .construct_U u] ∧
    dtor_calls_E (c.assign_U u).log = 1 ∧
    ctor_calls_U (c.assign_U u).log = 1 ∧
    ctor_calls_E (c.assign_U u).log = 0 ∧
    dtor_calls_U (c.assign_U u).log = 0 ∧
    (c.assign_U u).obj.dtor.log = [.destroy_U] ∧
    (c.assign_U u).obj.dtor.obj.toe = .empty ∧
    dtor_calls_E ((c.assign_U u).log ++ (c.assign_U u).obj.dtor.log) = 1 ∧
    ctor_calls_E ((c.assign_U u).log ++ (c.assign_U u).obj.dtor.log) = 0 ∧
    ctor_calls_U ((c.assign_U u).log ++ (c.assign_U u).obj.dtor.log) = 1 ∧
    dtor_calls_U ((c.assign_U u).log ++ (c.assign_U u).obj.dtor.log) = 1 := by
  obtain ⟨toe, vv⟩ := c
  cases vv <;> cases toe <;>
    simp_all [expected.invariant, type_or_error.e, type_or_error.u, expected.assign_U,
      expected.dtor, Run.start, Run.destroy_e, Run.destroy_u, Run.placement_new_u,
      Run.set_value_variant, dtor_calls_E, ctor_calls_E, ctor_calls_U, dtor_calls_U]

/-- Witness for claim C10: the container built from the expected value `1` is
assigned the unexpected value `"bad"` and then destroyed. -/
theorem assign_U_over_expected_lifetime_witness :
    ((expected.ctor_E 1 : Run Nat String).obj.invariant ∧
     (expected.ctor_E 1 : Run Nat String).obj.value_variant = .Expected) ∧
    (((expected.ctor_E 1 : Run Nat String).obj.assign_U "bad").obj
        = ⟨.holds_u "bad", .Unexpected⟩ ∧
     (∃ e, (expected.ctor_E 1 : Run Nat String).obj.toe = .holds_e e) ∧
     ((expected.ctor_E 1 : Run Nat String).obj.assign_U "bad").log
        = [.destroy_E, .construct_U "bad"] ∧
     dtor_calls_E ((expected.ctor_E 1 : Run Nat String).obj.assign_U "bad").log = 1 ∧
     ctor_calls_U ((expected.ctor_E 1 : Run Nat String).obj.assign_U "bad").log = 1 ∧
     ctor_calls_E ((expected.ctor_E 1 : Run Nat String).obj.assign_U "bad").log = 0 ∧
     dtor_calls_U ((expected.ctor_E 1 : Run Nat String).obj.assign_U "bad").log = 0 ∧
     ((expected.ctor_E 1 : Run Nat String).obj.assign_U "bad").obj.dtor.log = [.destroy_U] ∧
     ((expected.ctor_E 1 : Run Nat String).obj.assign_U "bad").obj.dtor.obj.toe = .empty ∧
     dtor_calls_E (((expected.ctor_E 1 : Run Nat String).obj.assign_U "bad").log
        ++ ((expected.ctor_E 1 : Run Nat String).obj.assign_U "bad").obj.dtor.log) = 1 ∧
     ctor_calls_E (((expected.ctor_E 1 : Run Nat String).obj.assign_U "bad").log
        ++ ((expected.ctor_E 1 : Run Nat String).obj.assign_U "bad").obj.dtor.log) = 0 ∧
     ctor_calls_U (((expected.ctor_E 1 : Run Nat String).obj.assign_U "bad").log
        ++ ((expected.ctor_E 1 : Run Nat String).obj.assign_U "bad").obj.dtor.log) = 1 ∧
     dtor_calls_U (((expected.ctor_E 1 : Run Nat String).obj.assign_U "bad").log
        ++ ((expected.ctor_E 1 : Run Nat String).obj.assign_U "bad").obj.dtor.log) = 1) :=
  ⟨⟨by decide, by decide⟩,
   assign_U_over_expected_lifetime (expected.ctor_E 1 : Run Nat String).obj "bad"
     (by decide) (by decide)⟩

/-- Claim C11: for every container satisfying the invariant with
discriminant `Expected`, `operator=(const E &)` and `operator=(E &&)` perform
exactly one event, the assignment into the payload alive at entry: no `E` and
no `U` is constructed or destroyed and the discriminant stays `Expected`
(with payload `e`).  Symmetrically for a container with discriminant
`Unexpected` and `operator=(const U &)`, `operator=(U &&)`. -/
theorem assign_same_alternative_fast_path {E U : Type} (cE cU : expected E U) (e : E) (u : U)
    (hcE : cE.invariant) (hE : cE.value_variant = .Expected)
    (hcU : cU.invariant) (hU : cU.value_variant = .Unexpected) :
    ((∃ old, cE.toe = .holds_e old) ∧
     (cE.assign_E e).log = [.assign_E e] ∧
     (cE.assign_E e).obj = ⟨.holds_e e, .Expected⟩ ∧
     ctor_calls_E (cE.assign_E e).log = 0 ∧ dtor_calls_E (cE.assign_E e).log = 0 ∧
     ctor_calls_U (cE.assign_E e).log = 0 ∧ dtor_calls_U (cE.assign_E e).log = 0 ∧
     cE.assign_E_move e = cE.assign_E e) ∧
    ((∃ old, cU.toe = .holds_u old) ∧
     (cU.assign_U u).log = [.assign_U u] ∧
     (cU.assign_U u).obj = ⟨.holds_u u, .Unexpected⟩ ∧
     ctor_calls_E (cU.assign_U u).log = 0 ∧ dtor_calls_E (cU.assign_U u).log = 0 ∧
     ctor_calls_U (cU.assign_U u).log = 0 ∧ dtor_calls_U (cU.assign_U u).log = 0 ∧
     cU.assign_U_move u = cU.assign_U u) := by
  obtain ⟨etoe, evv⟩ := cE
  obtain ⟨utoe, uvv⟩ := cU
  subst hE
  subst hU
  cases etoe <;> cases utoe <;>
    simp_all [expected.invariant, type_or_error.e, type_or_error.u, expected.assign_E,
      expected.assign_E_move, expected.assign_U, expected.assign_U_move, Run.start,
      Run.assign_e, Run.assign_u, dtor_calls_E, ctor_calls_E, ctor_calls_U, dtor_calls_U]

/-- Witness for claim C11: `2` assigned to the container built from `1`, and
`"y"` assigned to the container built from `"x"`. -/
theorem assign_same_alternative_fast_path_witness :
    ((expected.ctor_E 1 : Run Nat String).obj.invariant ∧
     (expected.ctor_E 1 : Run Nat String).obj.value_variant = .Expected ∧
     (expected.ctor_U "x" : Run Nat String).obj.invariant ∧
     (expected.ctor_U "x" : Run Nat String).obj.value_variant = .Unexpected) ∧
    ((∃ old, (expected.ctor_E 1 : Run Nat String).obj.toe = .holds_e old) ∧
     ((expected.ctor_E 1 : Run Nat String).obj.assign_E 2).log = [.assign_E 2] ∧
     ((expected.ctor_E 1 : Run Nat String).obj.assign_E 2).obj = ⟨.holds_e 2, .Expected⟩ ∧
     ctor_calls_E ((expected.ctor_E 1 : Run Nat String).obj.assign_E 2).log = 0 ∧
     dtor_calls_E ((expected.ctor_E 1 : Run Nat String).obj.assign_E 2).log = 0 ∧
     ctor_calls_U ((expected.ctor_E 1 : Run Nat String).obj.assign_E 2).log = 0 ∧
     dtor_calls_U ((expected.ctor_E 1 : Run Nat String).obj.assign_E 2).log = 0 ∧
     (expected.ctor_E 1 : Run Nat String).obj.assign_E_move 2
       = (expected.ctor_E 1 : Run Nat String).obj.assign_E 2) ∧
    ((∃ old, (expected.ctor_U "x" : Run Nat String).obj.toe = .holds_u old) ∧
     ((expected.ctor_U "x" : Run Nat String).obj.assign_U "y").log = [.assign_U "y"] ∧
     ((expected.ctor_U "x" : Run Nat String).obj.assign_U "y").obj
       = ⟨.holds_u "y", .Unexpected⟩ ∧
     ctor_calls_E ((expected.ctor_U "x" : Run Nat String).obj.assign_U "y").log = 0 ∧
     dtor_calls_E ((expected.ctor_U "x" : Run Nat String).obj.assign_U "y").log = 0 ∧
     ctor_calls_U ((expected.ctor_U "x" : Run Nat String).obj.assign_U "y").log = 0 ∧
     dtor_calls_U ((expected.ctor_U "x" : Run Nat String).obj.assign_U "y").log = 0 ∧
     (expected.ctor_U "x" : Run Nat String).obj.assign_U_move "y"
       = (expected.ctor_U "x" : Run Nat String).obj.assign_U "y") :=
  ⟨⟨by decide, by decide, by decide, by decide⟩,
   assign_same_alternative_fast_path (expected.ctor_E 1 : Run Nat String).obj
     (expected.ctor_U "x" : Run Nat String).obj 2 "y"
     (by decide) (by decide) (by decide) (by decide)⟩

/-! ## Emplace -/

/-- Claim C12: for every container satisfying the invariant, in any state,
`emplace_expected` first destroys the payload alive at entry, if any (the
`E` payload when the discriminant is `Expected`, the `U` payload when it is
`Unexpected`, nothing when it is `NoValue`), then constructs the new `E`
payload, and ends with discriminant `Expected`; `emplace_unexpected` does the
same for `U`.  With the target alternative already active the events are a
destroy followed by a construct, where raw-value assignment performs a
single payload assignment. -/
theorem emplace_contract {E U : Type} (c : expected E U) (e : E) (u : U) (hc : c.invariant) :
    ((c.emplace_expected e).obj = ⟨.holds_e e, .Expected⟩ ∧
     (c.emplace_unexpected u).obj = ⟨.holds_u u, .Unexpected⟩) ∧
    (c.value_variant = .Expected →
      (∃ old, c.toe = .holds_e old) ∧
      (c.emplace_expected e).log = [.destroy_E, .construct_E e] ∧
      (c.emplace_unexpected u).log = [.destroy_E, .construct_U u] ∧
      (c.assign_E e).log = [.assign_E e]) ∧
    (c.value_variant = .Unexpected →
      (∃ old, c.toe = .holds_u old) ∧
      (c.emplace_expected e).log = [.destroy_U, .construct_E e] ∧
      (c.emplace_unexpected u).log = [.destroy_U, .construct_U u] ∧
      (c.assign_U u).log = [.assign_U u]) ∧
    (c.value_variant = .NoValue →
      c.toe = .empty ∧
      (c.emplace_expected e).log = [.construct_E e] ∧
      (c.emplace_unexpected u).log = [.construct_U u]) := by
  obtain ⟨toe, vv⟩ := c
  cases vv <;> cases toe <;>
    simp_all [expected.invariant, type_or_error.e, type_or_error.u, expected.emplace_expected,
      expected.emplace_unexpected, expected.assign_E, expected.assign_U, Run.start,
      Run.assign_e, Run.assign_u, Run.destroy_e, Run.destroy_u, Run.placement_new_e,
      Run.placement_new_u, Run.set_value_variant]

/-- Witness for claim C12: emplacing `2` and `"z"` into the container built
from the expected value `1`. -/
theorem emplace_contract_witness :
    (expected.ctor_E 1 : Run Nat String).obj.invariant ∧
    ((((expected.ctor_E 1 : Run Nat String).obj.emplace_expected 2).obj = ⟨.holds_e 2, .Expected⟩ ∧
      ((expected.ctor_E 1 : Run Nat String).obj.emplace_unexpected "z").obj = ⟨.holds_u "z", .Unexpected⟩) ∧
     ((expected.ctor_E 1 : Run Nat String).obj.value_variant = .Expected →
       (∃ old, (expected.ctor_E 1 : Run Nat String).obj.toe = .holds_e old) ∧
       ((expected.ctor_E 1 : Run Nat String).obj.emplace_expected 2).log = [.destroy_E, .construct_E 2] ∧
       ((expected.ctor_E 1 : Run Nat String).obj.emplace_unexpected "z").log = [.destroy_E, .construct_U "z"] ∧
       ((expected.ctor_E 1 : Run Nat String).obj.assign_E 2).log = [.assign_E 2]) ∧
     ((expected.ctor_E 1 : Run Nat String).obj.value_variant = .Unexpected →
       (∃ old, (expected.ctor_E 1 : Run Nat String).obj.toe = .holds_u old) ∧
       ((expected.ctor_E 1 : Run Nat String).obj.emplace_expected 2).log = [.destroy_U, .construct_E 2] ∧
       ((expected.ctor_E 1 : Run Nat String).obj.emplace_unexpected "z").log = [.destroy_U, .construct_U "z"] ∧
       ((expected.ctor_E 1 : Run Nat String).obj.assign_U "z").log = [.assign_U "z"]) ∧
     ((expected.ctor_E 1 : Run Nat String).obj.value_variant = .NoValue →
       (expected.ctor_E 1 : Run Nat String).obj.toe = .empty ∧
       ((expected.ctor_E 1 : Run Nat String).obj.emplace_expected 2).log = [.construct_E 2] ∧
       ((expected.ctor_E 1 : Run Nat String).obj.emplace_unexpected "z").log = [.construct_U "z"])) :=
  ⟨by decide, emplace_contract (expected.ctor_E 1 : Run Nat String).obj 2 "z" (by decide)⟩

/-! ## Fallback accessors and boolean conversion -/

/-- Claim C13: for every container and every fallback `f`, `value_or(f)`
returns the reference to the `Expected` slot when the discriminant is
`Expected` (the live payload when the invariant holds) and exactly `f` when
it is `Unexpected` or `NoValue`; it is a total function with neither a throw
nor a terminate outcome, and it leaves the container as it was, with no
payload lifetime event. -/
theorem value_or_contract {E U : Type} (c : expected E U) (f : E) :
    (c.value_variant = .Expected → (c.value_or f).1 = c.toe.e) ∧
    (c.invariant ∧ c.value_variant = .Expected →
      ∃ v, c.toe = .holds_e v ∧ (c.value_or f).1 = some v) ∧
    (c.value_variant = .Unexpected → (c.value_or f).1 = some f) ∧
    (c.value_variant = .NoValue → (c.value_or f).1 = some f) ∧
    (c.value_or f).2.obj = c ∧
    (c.value_or f).2.log = [] := by
  obtain ⟨toe, vv⟩ := c
  cases vv <;> cases toe <;>
    simp [expected.value_or, expected.invariant, type_or_error.e, type_or_error.u, Run.start]

/-- Claim C14: for every container and either outcome of the streamability
test, `value_or_terminate()` (both forms) returns the reference to the
`Expected` slot, with nothing written and no termination, when the
discriminant is `Expected` (the live payload when the invariant holds); when
it is `Unexpected` or `NoValue` the call neither returns nor throws but
reaches `std::terminate()` after writing a message that starts with the
line `Process terminated. Error message:`.  With a live streamable
`Unexpected` payload the message goes on with its quoted rendering. -/
theorem value_or_terminate_contract {E U : Type} (stream_U : Option (U → String))
    (c : expected E U) :
    (c.value_variant = .Expected → c.value_or_terminate stream_U = .returns c.toe.e) ∧
    (c.invariant ∧ c.value_variant = .Expected →
      ∃ v, c.toe = .holds_e v ∧ c.value_or_terminate stream_U = .returns (some v)) ∧
    (c.value_variant ≠ .Expected →
      ∃ rest, c.value_or_terminate stream_U
        = .terminate (.text "Process terminated. Error message:" :: .endl :: rest)) ∧
    (∀ render, stream_U = some render → c.invariant ∧ c.value_variant = .Unexpected →
      ∃ v, c.toe = .holds_u v ∧ c.value_or_terminate stream_U
        = .terminate [.text "Process terminated. Error message:", .endl,
            .text double_quote, .text (render v), .text double_quote, .endl]) ∧
    (stream_U = none → c.value_variant ≠ .Expected →
      c.value_or_terminate stream_U
        = .terminate [.text "Process terminated. Error message:", .endl,
            .text "Error type is not streamable via OStream.", .endl]) ∧
    c.value_or_terminate_const stream_U = c.value_or_terminate stream_U := by
  obtain ⟨toe, vv⟩ := c
  cases stream_U <;> cases vv <;> cases toe <;>
    simp [expected.value_or_terminate, expected.value_or_terminate_const, expected.invariant,
      type_or_error.e, type_or_error.u]

/-- Claim C15: for every container, `operator bool` is true exactly when the
discriminant is `Expected`, false for `Unexpected` and for `NoValue`, and
true exactly when `get_expected()` (either form) does not throw. -/
theorem operator_bool_contract {E U : Type} (c : expected E U) :
    (c.operator_bool = true ↔ c.value_variant = .Expected) ∧
    (c.value_variant = .Unexpected → c.operator_bool = false) ∧
    (c.value_variant = .NoValue → c.operator_bool = false) ∧
    (c.operator_bool = true ↔ ∃ slot, c.get_expected = .ok slot) ∧
    (c.operator_bool = true ↔ ∃ slot, c.get_expected_const = .ok slot) := by
  obtain ⟨toe, vv⟩ := c
  cases vv <;>
    simp [expected.operator_bool, expected.get_expected, expected.get_expected_const]

/-! ## Lifetime invariant over sequences of operations -/

/-- Claim C16, the code at the failing input:
`expected<unsigned, std::string> c(7); c = nullexpect;` and then the
destructor.  The container built by the constructor satisfies the invariant;
after `operator=(nullexpect_t)` the discriminant is `Expected` while no
payload is alive, so the invariant is broken, and `~expected()` calls the
`E` destructor a second time: one `E` construction, two `E` destructions. -/
theorem assign_nullexpect_breaks_lifetime_invariant :
    (expected.ctor_E 7 : Run Nat String).obj.invariant ∧
    ((expected.ctor_E 7 : Run Nat String).obj.assign_nullexpect).obj = ⟨.empty, .Expected⟩ ∧
    ¬ ((expected.ctor_E 7 : Run Nat String).obj.assign_nullexpect).obj.invariant ∧
    (expected.ctor_E 7 : Run Nat String).log
        ++ ((expected.ctor_E 7 : Run Nat String).obj.assign_nullexpect).log
        ++ ((expected.ctor_E 7 : Run Nat String).obj.assign_nullexpect).obj.dtor.log
      = [.construct_E 7, .destroy_E, .destroy_E] ∧
    ctor_calls_E ((expected.ctor_E 7 : Run Nat String).log
        ++ ((expected.ctor_E 7 : Run Nat String).obj.assign_nullexpect).log
        ++ ((expected.ctor_E 7 : Run Nat String).obj.assign_nullexpect).obj.dtor.log) = 1 ∧
    dtor_calls_E ((expected.ctor_E 7 : Run Nat String).log
        ++ ((expected.ctor_E 7 : Run Nat String).obj.assign_nullexpect).log
        ++ ((expected.ctor_E 7 : Run Nat String).obj.assign_nullexpect).obj.dtor.log) = 2 := by
  decide

/-- Claim C17, the code at the failing input:
`expected<unsigned, std::string> c; c.value_or_terminate();`.  The
default-constructed container satisfies the invariant and has no `U` alive,
and `value_or_terminate` inserts `toe.u` into `std::cerr` all the same.
Second input, `expected<unsigned, std::string> d(7); d = nullexpect;`: every
accessor of the `Expected` slot then hands out the slot whose payload was
destroyed. -/
theorem accessors_reach_dead_slots :
    (expected.ctor_default : Run Nat String).obj.invariant ∧
    (expected.ctor_default : Run Nat String).obj.toe.u = none ∧
    (expected.ctor_default : Run Nat String).obj.value_or_terminate (some id)
      = .terminate [.text "Process terminated. Error message:", .endl,
          .text double_quote, .dead_u, .text double_quote, .endl] ∧
    (expected.ctor_default : Run Nat String).obj.value_or_terminate_const (some id)
      = .terminate [.text "Process terminated. Error message:", .endl,
          .text double_quote, .dead_u, .text double_quote, .endl] ∧
    ((expected.ctor_E 7 : Run Nat String).obj.assign_nullexpect).obj.toe.e = none ∧
    ((expected.ctor_E 7 : Run Nat String).obj.assign_nullexpect).obj.get_expected = .ok none ∧
    ((expected.ctor_E 7 : Run Nat String).obj.assign_nullexpect).obj.operator_star = .ok none ∧
    ((expected.ctor_E 7 : Run Nat String).obj.assign_nullexpect).obj.operator_arrow = .ok none ∧
    (((expected.ctor_E 7 : Run Nat String).obj.assign_nullexpect).obj.value_or 0).1 = none ∧
    ((expected.ctor_E 7 : Run Nat String).obj.assign_nullexpect).obj.value_or_terminate (some id)
      = .returns none := by
  refine ⟨by decide, rfl, rfl, rfl, rfl, rfl, rfl, rfl, rfl, rfl⟩

/-! ## Move assignment -/

/-- Claim C18, the code at the failing input:
`expected<unsigned, std::string> t(5), s; t = std::move(s);`.
`operator=(expected &&)` has no branch for a source whose discriminant is
`NoValue`: the target keeps discriminant `Expected` and its payload `5`, and
no payload is destroyed. -/
theorem assign_move_from_empty_keeps_target :
    (expected.ctor_E 5 : Run Nat String).obj.assign_move id id expected.ctor_default.obj true
      = some ⟨⟨⟨.holds_e 5, .Expected⟩, []⟩, ⟨.empty, .NoValue⟩⟩ ∧
    (expected.ctor_U "u" : Run Nat String).obj.assign_move id id expected.ctor_default.obj true
      = some ⟨⟨⟨.holds_u "u", .Unexpected⟩, []⟩, ⟨.empty, .NoValue⟩⟩ := by
  decide

/-! ## Error text -/

/-- Claim C19, the code at the failing input:
`expected<unsigned, std::string> c; c.get_expected();` and
`c.get_unexpected();`.  On the empty container `get_expected()` throws the
text ending in `but it contains unexpected value.` and `get_unexpected()` the
text ending in `but it contains expected value.`: the same errors as on a
container that does hold the other alternative. -/
theorem get_error_text_on_empty :
    (expected.ctor_default : Run Nat String).obj.value_variant = .NoValue ∧
    (expected.ctor_default : Run Nat String).obj.get_expected
      = .error ⟨"Trying to use expected with expected value, but it contains unexpected value."⟩ ∧
    (expected.ctor_default : Run Nat String).obj.get_unexpected
      = .error ⟨"Trying to use expected with unexpected value, but it contains expected value."⟩ ∧
    (expected.ctor_default : Run Nat String).obj.get_expected
      = (expected.ctor_U "u" : Run Nat String).obj.get_expected ∧
    (expected.ctor_default : Run Nat String).obj.get_unexpected
      = (expected.ctor_E 1 : Run Nat String).obj.get_unexpected := by
  refine ⟨rfl, rfl, rfl, rfl, rfl⟩

end hqrp
